import Mathlib

/-!
Shallow embedding of the lazgi-hands per-frame pipeline.

Sources:
* `src/src/templates.js` — template library, `getClosestTemplate`, `findBestMatch`
* `src/src/tracking.js` / `src/unnamed/part_000` — angle computations
* `src/unnamed/part_003` — `calculateHandVelocity` (side-keyed previous-landmark cache)
* `src/unnamed/part_004` — Visualizer medallion pool (`spawnMedallion`,
  `updateMedallions`, `setMode`)
* `src/src/music.js` — `updateFromHand` finger-note trigger logic

Live landmark coordinates are modelled as exact reals (the JS source computes
with floats; all claims are about the exact arithmetic the source writes down).
Template authoring-time constants are decimal literals in the source and are
modelled as exact rationals, cast to ℝ where the matcher subtracts them from
live coordinates.  The medallion pool and the music trigger logic only ever
add, multiply, compare and floor their inputs, so they are embedded over ℚ and
stay fully executable.
-/

namespace LazgiHands

/-- A live landmark from the detector: normalized x, y and relative depth z
(`tracking.js` hands carry all three fields). -/
structure Landmark where
  x : ℝ
  y : ℝ
  z : ℝ

/-- An authoring-time template point (`templates.js` template landmarks carry
only `x` and `y`). -/
structure TPoint where
  x : ℚ
  y : ℚ
deriving DecidableEq

/-- A tracked hand: 21 landmarks in the fixed MediaPipe indexing.
(Handedness label and confidence are carried by the source hand records but no
claim depends on them, so they are omitted here.) -/
structure Hand where
  landmarks : Fin 21 → Landmark

/-- A template from the fixed library (`templates.js`): id plus 21 points.
(Display-only `name`/`description`/`category` fields are omitted.) -/
structure Template where
  id : String
  landmarks : Fin 21 → TPoint

/-- `generateSunSalutation()` in `templates.js`. -/
def sunSalutation : Template :=
  ⟨"sun-salutation",
   ![⟨0.5, 0.8⟩,
     ⟨0.35, 0.75⟩, ⟨0.28, 0.65⟩, ⟨0.22, 0.55⟩, ⟨0.18, 0.45⟩,
     ⟨0.42, 0.65⟩, ⟨0.38, 0.50⟩, ⟨0.35, 0.35⟩, ⟨0.32, 0.20⟩,
     ⟨0.50, 0.62⟩, ⟨0.50, 0.45⟩, ⟨0.50, 0.28⟩, ⟨0.50, 0.12⟩,
     ⟨0.58, 0.65⟩, ⟨0.62, 0.50⟩, ⟨0.65, 0.35⟩, ⟨0.68, 0.20⟩,
     ⟨0.65, 0.72⟩, ⟨0.72, 0.60⟩, ⟨0.78, 0.50⟩, ⟨0.82, 0.42⟩]⟩

/-- `generateTremblingFlame()` in `templates.js`. -/
def tremblingFlame : Template :=
  ⟨"trembling-flame",
   ![⟨0.5, 0.85⟩,
     ⟨0.32, 0.78⟩, ⟨0.25, 0.68⟩, ⟨0.22, 0.55⟩, ⟨0.20, 0.42⟩,
     ⟨0.40, 0.68⟩, ⟨0.38, 0.52⟩, ⟨0.36, 0.36⟩, ⟨0.35, 0.22⟩,
     ⟨0.50, 0.65⟩, ⟨0.50, 0.48⟩, ⟨0.50, 0.32⟩, ⟨0.50, 0.15⟩,
     ⟨0.60, 0.68⟩, ⟨0.62, 0.52⟩, ⟨0.64, 0.36⟩, ⟨0.66, 0.22⟩,
     ⟨0.68, 0.75⟩, ⟨0.74, 0.62⟩, ⟨0.78, 0.50⟩, ⟨0.82, 0.38⟩]⟩

/-- `generateBrokenAngle()` in `templates.js`. -/
def brokenAngle : Template :=
  ⟨"broken-angle",
   ![⟨0.5, 0.75⟩,
     ⟨0.42, 0.68⟩, ⟨0.38, 0.58⟩, ⟨0.40, 0.50⟩, ⟨0.45, 0.45⟩,
     ⟨0.45, 0.60⟩, ⟨0.42, 0.48⟩, ⟨0.48, 0.40⟩, ⟨0.55, 0.38⟩,
     ⟨0.52, 0.58⟩, ⟨0.52, 0.45⟩, ⟨0.58, 0.38⟩, ⟨0.65, 0.35⟩,
     ⟨0.58, 0.60⟩, ⟨0.60, 0.50⟩, ⟨0.65, 0.45⟩, ⟨0.72, 0.42⟩,
     ⟨0.65, 0.65⟩, ⟨0.70, 0.58⟩, ⟨0.75, 0.55⟩, ⟨0.80, 0.52⟩]⟩

/-- `generateFingerFlutter()` in `templates.js`. -/
def fingerFlutter : Template :=
  ⟨"finger-flutter",
   ![⟨0.5, 0.82⟩,
     ⟨0.30, 0.72⟩, ⟨0.22, 0.60⟩, ⟨0.18, 0.48⟩, ⟨0.15, 0.38⟩,
     ⟨0.38, 0.65⟩, ⟨0.32, 0.48⟩, ⟨0.28, 0.32⟩, ⟨0.25, 0.18⟩,
     ⟨0.50, 0.62⟩, ⟨0.50, 0.42⟩, ⟨0.50, 0.25⟩, ⟨0.50, 0.08⟩,
     ⟨0.62, 0.65⟩, ⟨0.68, 0.48⟩, ⟨0.72, 0.32⟩, ⟨0.75, 0.18⟩,
     ⟨0.70, 0.72⟩, ⟨0.78, 0.60⟩, ⟨0.82, 0.48⟩, ⟨0.85, 0.38⟩]⟩

/-- `generateClosedLotus()` in `templates.js`. -/
def closedLotus : Template :=
  ⟨"closed-lotus",
   ![⟨0.5, 0.85⟩,
     ⟨0.40, 0.78⟩, ⟨0.38, 0.68⟩, ⟨0.42, 0.58⟩, ⟨0.48, 0.52⟩,
     ⟨0.45, 0.70⟩, ⟨0.44, 0.58⟩, ⟨0.46, 0.46⟩, ⟨0.50, 0.38⟩,
     ⟨0.50, 0.68⟩, ⟨0.50, 0.55⟩, ⟨0.50, 0.42⟩, ⟨0.50, 0.32⟩,
     ⟨0.55, 0.70⟩, ⟨0.56, 0.58⟩, ⟨0.54, 0.46⟩, ⟨0.50, 0.38⟩,
     ⟨0.60, 0.75⟩, ⟨0.62, 0.65⟩, ⟨0.58, 0.55⟩, ⟨0.52, 0.48⟩]⟩

/-- The fixed template library, in source order (`templates.js`, `templates`). -/
def templates : List Template :=
  [sunSalutation, tremblingFlame, brokenAngle, fingerFlutter, closedLotus]

/-- Per-landmark distance computed in the `getClosestTemplate` loop:
`dx = detected.x - target.x; dy = detected.y - target.y;
sqrt(dx*dx + dy*dy)` — purely 2-D, the `z` of the detected landmark is unread. -/
noncomputable def landmarkDist (detected : Landmark) (target : TPoint) : ℝ :=
  Real.sqrt ((detected.x - (target.x : ℝ)) * (detected.x - (target.x : ℝ)) +
    (detected.y - (target.y : ℝ)) * (detected.y - (target.y : ℝ)))

/-- `getClosestTemplate(hand, template)` in `templates.js`:
`if (!hand || !template) return 0;` then a loop `for i in 0..20` accumulating
`totalDistance`, then `avgDistance = totalDistance / 21` and
`score = Math.max(0, 1 - avgDistance / 0.25)`. -/
noncomputable def getClosestTemplate : Option Hand → Option Template → ℝ
  | none, _ => 0
  | some _, none => 0
  | some hand, some template =>
    max 0 (1 -
      ((List.finRange 21).foldl
        (fun acc i => acc + landmarkDist (hand.landmarks i) (template.landmarks i))
        0) / 21 / 0.25)

/-- The score of one library template against the (optional) live hand, as
computed inside the `findBestMatch` loop. -/
noncomputable def templateScore (hand : Option Hand) (t : Template) : ℝ :=
  getClosestTemplate hand (some t)

open Classical in
/-- One iteration of the `findBestMatch` scan:
`if (score > bestScore) { bestScore = score; bestTemplate = template; }`. -/
noncomputable def bestStep (hand : Option Hand)
    (best : Option Template × ℝ) (t : Template) : Option Template × ℝ :=
  if best.2 < templateScore hand t then (some t, templateScore hand t) else best

/-- `findBestMatch(hand)` in `templates.js`: scan the library starting from
`bestScore = 0`, `bestTemplate = null`, keeping strictly greater scores. -/
noncomputable def findBestMatch (hand : Option Hand) : Option Template × ℝ :=
  templates.foldl (bestStep hand) (none, 0)

/-- Spec-side restatement of the score formula ("avgDistance is the mean over
the 21 landmark indices of the Euclidean distance between the live landmark and
the template landmark"), for comparison with the loop in the source. -/
noncomputable def avgDistanceSpec (hand : Hand) (template : Template) : ℝ :=
  (∑ i : Fin 21, landmarkDist (hand.landmarks i) (template.landmarks i)) / 21

/-- Frame-to-frame displacement of one landmark, as summed inside
`calculateHandVelocity` (`part_003`):
`sqrt(pow(curr.x - p.x, 2) + pow(curr.y - p.y, 2))`. -/
noncomputable def ptDist (curr prev : Landmark) : ℝ :=
  Real.sqrt ((curr.x - prev.x) ^ 2 + (curr.y - prev.y) ^ 2)

/-- `calculateHandVelocity(hand, side)` from `part_003`, with the
`prevLandmarks[side]` cell made explicit: given the previous snapshot for this
hand identity (or `none` on the first call) and the current 21 landmarks,
return the velocity together with the updated cell.  On a first call it stores
the snapshot and returns 0; otherwise it averages the per-landmark
displacement, scales by 100 and clamps with `Math.min(..., 1)`. -/
noncomputable def calculateHandVelocity
    (prev : Option (Fin 21 → Landmark)) (landmarks : Fin 21 → Landmark) :
    ℝ × Option (Fin 21 → Landmark) :=
  match prev with
  | none => (0, some landmarks)
  | some p =>
    (min
      (((List.finRange 21).foldl (fun acc i => acc + ptDist (landmarks i) (p i)) 0)
        / 21 * 100)
      1,
     some landmarks)

/-- 2-D dot product of the two bone-segment vectors
(`v1.x * v2.x + v1.y * v2.y` in `calculateFingerAngles` / `calculateArmAngle`). -/
def dotProd (v1 v2 : ℝ × ℝ) : ℝ := v1.1 * v2.1 + v1.2 * v2.2

/-- Vector magnitude (`Math.sqrt(v.x * v.x + v.y * v.y)`). -/
noncomputable def magnitude (v : ℝ × ℝ) : ℝ :=
  Real.sqrt (v.1 * v.1 + v.2 * v.2)

/-- The common angle kernel of `calculateFingerAngles` (`tracking.js`) and
`calculateArmAngle` (`part_000`):
`Math.acos(dot / (mag1 * mag2 + 0.0001))` — the denominator carries the
additive epsilon `0.0001`. -/
noncomputable def angleBetween (v1 v2 : ℝ × ℝ) : ℝ :=
  Real.arccos (dotProd v1 v2 / (magnitude v1 * magnitude v2 + 0.0001))

/-- Per-finger bend angle: vectors MCP→PIP and PIP→TIP (x/y only), then the
epsilon-guarded arccosine (`tracking.js`, `calculateFingerAngles` body). -/
noncomputable def fingerBendAngle (mcp pip tip : Landmark) : ℝ :=
  angleBetween (pip.x - mcp.x, pip.y - mcp.y) (tip.x - pip.x, tip.y - pip.y)

/-- `calculateArmAngle(shoulder, elbow, wrist)` from `part_000`: vectors
elbow→shoulder and elbow→wrist, same epsilon-guarded arccosine. -/
noncomputable def calculateArmAngle (shoulder elbow wrist : Landmark) : ℝ :=
  angleBetween (shoulder.x - elbow.x, shoulder.y - elbow.y)
    (wrist.x - elbow.x, wrist.y - elbow.y)

/-- The five fingers, in the iteration order of the source tables. -/
inductive Finger where
  | thumb
  | indexFinger
  | middle
  | ring
  | pinky
deriving DecidableEq, Repr

/-- The `fingers` index groups of `calculateFingerAngles`; the loop reads
`indices[0]` (MCP), `indices[1]` (PIP) and `indices[3]` (TIP). -/
def fingerJoints : Finger → Fin 21 × Fin 21 × Fin 21
  | .thumb => (1, 2, 4)
  | .indexFinger => (5, 6, 8)
  | .middle => (9, 10, 12)
  | .ring => (13, 14, 16)
  | .pinky => (17, 18, 20)

/-- `calculateFingerAngles(landmarks)` restricted to one finger. -/
noncomputable def calculateFingerAngles (lm : Fin 21 → Landmark) (f : Finger) : ℝ :=
  fingerBendAngle (lm (fingerJoints f).1) (lm (fingerJoints f).2.1)
    (lm (fingerJoints f).2.2)

/-- `PENTATONIC` in `music.js` — 10 steps. -/
def PENTATONIC : List String :=
  ["E3", "G3", "A3", "B3", "D4", "E4", "G4", "A4", "B4", "D5"]

/-- The fingertip landmark index used for each finger synth
(`tips` table in `updateFromHand`). -/
def tipIndex : Finger → Fin 21
  | .thumb => 4
  | .indexFinger => 8
  | .middle => 12
  | .ring => 16
  | .pinky => 20

/-- The note mapped from a fingertip height in `updateFromHand`:
`noteIndex = Math.floor((1 - tip.y) * PENTATONIC.length)` then
`PENTATONIC[Math.max(0, Math.min(noteIndex, PENTATONIC.length - 1))]`.
The clamped index always lies in range, so the `getD` default is unreachable. -/
def noteForTipY (y : ℚ) : String :=
  PENTATONIC.getD
    (max 0 (min (Int.floor ((1 - y) * (PENTATONIC.length : ℚ)))
      ((PENTATONIC.length : ℤ) - 1))).toNat
    "E3"

/-- One finger of the trigger loop in `updateFromHand`: fires (and records the
note in `lastNotes[name]`) exactly when
`note !== this.lastNotes[name] && velocity > 0.1`.  Returns the triggered note
(if any) and the updated `lastNotes[name]` cell.  (`lastNotes[name]` starts out
undefined, modelled as `none`.) -/
def fingerTrigger (velocity : ℚ) (y : ℚ) (last : Option String) :
    Option String × Option String :=
  if some (noteForTipY y) ≠ last ∧ (0.1 : ℚ) < velocity then
    (some (noteForTipY y), some (noteForTipY y))
  else (none, last)

/-- The per-finger `lastNotes` store of the sound engine. -/
def LastNotes : Type := Finger → Option String

/-- The discrete-trigger portion of `updateFromHand(velocity, spread,
landmarks)`: each of the five fingers is processed once, each reading and
writing only its own `lastNotes[name]` cell, so the loop acts pointwise.
Returns the map of triggered notes for this frame and the updated store. -/
def updateFromHandTriggers (velocity : ℚ) (landmarks : Fin 21 → ℚ × ℚ)
    (last : LastNotes) : (Finger → Option String) × LastNotes :=
  (fun f => (fingerTrigger velocity (landmarks (tipIndex f)).2 (last f)).1,
   fun f => (fingerTrigger velocity (landmarks (tipIndex f)).2 (last f)).2)

/-- One synthetic input frame for the music layer: the overall hand velocity
and the landmark set. -/
def MusicFrame : Type := ℚ × (Fin 21 → ℚ × ℚ)

/-- Feed a sequence of frames through the trigger logic, collecting each
trigger map of the frame. -/
def runFrames : List MusicFrame → LastNotes →
    List (Finger → Option String) × LastNotes
  | [], last => ([], last)
  | fr :: rest, last =>
    ((updateFromHandTriggers fr.1 fr.2 last).1 ::
        (runFrames rest (updateFromHandTriggers fr.1 fr.2 last).2).1,
     (runFrames rest (updateFromHandTriggers fr.1 fr.2 last).2).2)

/-- A medallion particle (`part_004`, `spawnMedallion` object literal).  Only
the fields the pool dynamics read or write are modelled: `x`, `y`, `vx`, `vy`,
`life`, `decay`.  The render-only fields (`layers`, `hasCenter`,
`centerColor`, `centerBlur`, `wobbleSeed`) are baked at spawn time and never
consulted by the spawn/update/clear pool operations the claims are about. -/
structure Medallion where
  x : ℚ
  y : ℚ
  vx : ℚ
  vy : ℚ
  life : ℚ
  decay : ℚ
deriving DecidableEq, Repr

/-- The random draws `spawnMedallion` makes for the pool-relevant fields:
positional jitter in [-10,10], `vx` in [-1,1], `vy` in [-0.5,1] and `decay` in
[0.008, 0.02].  Randomness is an input of the embedding. -/
structure SpawnParams where
  jitterX : ℚ
  jitterY : ℚ
  vx : ℚ
  vy : ℚ
  decay : ℚ
deriving DecidableEq, Repr

/-- The medallion object `spawnMedallion(x, y)` pushes: position plus jitter,
the drawn velocities and decay, and `life: 1` — a literal in the source. -/
def mkMedallion (x y : ℚ) (p : SpawnParams) : Medallion :=
  ⟨x + p.jitterX, y + p.jitterY, p.vx, p.vy, 1, p.decay⟩

/-- `spawnMedallion(x, y)` pool effect: `this.medallions.push({...})` followed
by `if (this.medallions.length > 80) this.medallions.shift();` — `shift`
removes the front (oldest-spawned surviving) entry. -/
def spawnMedallion (x y : ℚ) (p : SpawnParams) (pool : List Medallion) :
    List Medallion :=
  if 80 < (pool ++ [mkMedallion x y p]).length then (pool ++ [mkMedallion x y p]).drop 1
  else pool ++ [mkMedallion x y p]

/-- One tick of aging in `updateMedallions`:
`m.x += m.vx; m.y += m.vy; m.vy += 0.02; m.life -= m.decay;`. -/
def ageMedallion (m : Medallion) : Medallion :=
  { m with
    x := m.x + m.vx
    y := m.y + m.vy
    vy := m.vy + 0.02
    life := m.life - m.decay }

/-- `updateMedallions()`: every medallion is aged in place, then
`if (m.life <= 0) this.medallions.splice(i, 1);`.  The source iterates from
the back and splices one index at a time; each element is aged independently
and order is preserved, so this equals aging every element and keeping those
with positive remaining life. -/
def updateMedallions (pool : List Medallion) : List Medallion :=
  (pool.map ageMedallion).filter (fun m => decide (0 < m.life))

/-- The visualizer state touched by the mode contract (`part_004`): current
mode string and the medallion pool. -/
structure VisState where
  mode : String
  medallions : List Medallion

/-- `setMode(mode)` in `part_004`:
`this.mode = mode; this.medallions = [];`. -/
def setMode (newMode : String) (s : VisState) : VisState :=
  { s with mode := newMode, medallions := [] }

/-- One pool operation of the effect generator: a spawn event (with its random
draws) or an update tick. -/
inductive VisOp where
  | spawn (x y : ℚ) (p : SpawnParams)
  | update
deriving DecidableEq, Repr

/-- Apply one pool operation. -/
def applyOp (pool : List Medallion) : VisOp → List Medallion
  | .spawn x y p => spawnMedallion x y p pool
  | .update => updateMedallions pool

/-- Run a sequence of pool operations from the initial empty pool
(`this.medallions = []` in the constructor). -/
def runOps (ops : List VisOp) : List Medallion :=
  ops.foldl applyOp []

/-! ### Helper lemmas -/

/-- Accumulating a function over a list with `foldl (+)` is adding the mapped
sum to the initial accumulator. -/
lemma foldl_add_eq {α : Type} (f : α → ℝ) (l : List α) (a : ℝ) :
    l.foldl (fun acc x => acc + f x) a = a + (l.map f).sum := by
  induction l generalizing a with
  | nil => simp
  | cons x xs ih => simp [List.foldl_cons, ih, add_assoc]

/-- The accumulation loop of `getClosestTemplate` computes the `Finset` sum of
the per-landmark distances. -/
lemma getClosestTemplate_eq (h : Hand) (t : Template) :
    getClosestTemplate (some h) (some t) = max 0 (1 - avgDistanceSpec h t / 0.25) := by
  show max 0 (1 - _ / 21 / 0.25) = _
  rw [foldl_add_eq, zero_add, ← Fin.sum_univ_def, avgDistanceSpec]

/-- The live hand whose 21 landmarks sit exactly on the points of a template
(depth 0). -/
noncomputable def handOfTemplate (t : Template) : Hand :=
  ⟨fun i => ⟨((t.landmarks i).x : ℝ), ((t.landmarks i).y : ℝ), 0⟩⟩

/-- A hand matching a template exactly scores 1. -/
lemma score_self (t : Template) :
    getClosestTemplate (some (handOfTemplate t)) (some t) = 1 := by
  rw [getClosestTemplate_eq]
  have h0 : avgDistanceSpec (handOfTemplate t) t = 0 := by
    rw [avgDistanceSpec, Finset.sum_eq_zero, zero_div]
    intro i _
    simp [landmarkDist, handOfTemplate, Real.sqrt_zero]
  rw [h0]
  norm_num

/-- A synthetic hand far to the left of every template point. -/
noncomputable def farHand : Hand := ⟨fun _ => ⟨-100, 0, 0⟩⟩

/-- Every template point with nonnegative `x` is at distance at least 100 from
the `farHand` landmark. -/
lemma far_dist_ge (p : TPoint) (hp : 0 ≤ p.x) :
    (100 : ℝ) ≤ landmarkDist ⟨-100, 0, 0⟩ p := by
  have hx : (0 : ℝ) ≤ (p.x : ℝ) := by exact_mod_cast hp
  rw [landmarkDist]
  have hrw : ((-100 : ℝ) - (p.x : ℝ)) * ((-100 : ℝ) - (p.x : ℝ)) +
      ((0 : ℝ) - (p.y : ℝ)) * ((0 : ℝ) - (p.y : ℝ)) =
      (100 + (p.x : ℝ)) ^ 2 + (p.y : ℝ) ^ 2 := by ring
  rw [hrw]
  calc (100 : ℝ) ≤ Real.sqrt ((100 + (p.x : ℝ)) ^ 2) := by
        rw [Real.sqrt_sq (by linarith)]; linarith
    _ ≤ Real.sqrt ((100 + (p.x : ℝ)) ^ 2 + (p.y : ℝ) ^ 2) :=
        Real.sqrt_le_sqrt (by nlinarith [sq_nonneg ((p.y : ℝ))])

/-- Against any template whose points have nonnegative `x`, the average distance of the far hand is at least 100. -/
lemma far_avg (t : Template) (ht : ∀ i : Fin 21, 0 ≤ (t.landmarks i).x) :
    (100 : ℝ) ≤ avgDistanceSpec farHand t := by
  rw [avgDistanceSpec, le_div_iff₀ (by norm_num : (0 : ℝ) < 21)]
  calc (100 : ℝ) * 21 = ∑ _i : Fin 21, (100 : ℝ) := by simp; norm_num
    _ ≤ _ := Finset.sum_le_sum (fun i _ => far_dist_ge _ (ht i))

/-- Against any template whose points have nonnegative `x`, the far hand
scores exactly 0. -/
lemma score_far (t : Template) (ht : ∀ i : Fin 21, 0 ≤ (t.landmarks i).x) :
    getClosestTemplate (some farHand) (some t) = 0 := by
  rw [getClosestTemplate_eq]
  have h := far_avg t ht
  rw [max_eq_left]
  rw [sub_nonpos, le_div_iff₀ (by norm_num : (0 : ℝ) < 0.25)]
  linarith

/-- Every point of every library template has nonnegative `x`. -/
lemma sun_x_nonneg : ∀ i : Fin 21, 0 ≤ (sunSalutation.landmarks i).x := by
  intro i; fin_cases i <;> norm_num [sunSalutation]

lemma flame_x_nonneg : ∀ i : Fin 21, 0 ≤ (tremblingFlame.landmarks i).x := by
  intro i; fin_cases i <;> norm_num [tremblingFlame]

lemma broken_x_nonneg : ∀ i : Fin 21, 0 ≤ (brokenAngle.landmarks i).x := by
  intro i; fin_cases i <;> norm_num [brokenAngle]

lemma flutter_x_nonneg : ∀ i : Fin 21, 0 ≤ (fingerFlutter.landmarks i).x := by
  intro i; fin_cases i <;> norm_num [fingerFlutter]

lemma lotus_x_nonneg : ∀ i : Fin 21, 0 ≤ (closedLotus.landmarks i).x := by
  intro i; fin_cases i <;> norm_num [closedLotus]

lemma templates_x_nonneg : ∀ t ∈ templates, ∀ i : Fin 21, 0 ≤ (t.landmarks i).x := by
  intro t ht
  simp only [templates, List.mem_cons, List.not_mem_nil, or_false] at ht
  rcases ht with rfl | rfl | rfl | rfl | rfl
  · exact sun_x_nonneg
  · exact flame_x_nonneg
  · exact broken_x_nonneg
  · exact flutter_x_nonneg
  · exact lotus_x_nonneg

/-- Running maximum of the scores of a template list, seeded at `s` — the
value `bestScore` holds after the `findBestMatch` scan. -/
noncomputable def runningMax (hand : Option Hand) (l : List Template) (s : ℝ) : ℝ :=
  l.foldl (fun a t => max a (templateScore hand t)) s

lemma runningMax_nil (hand : Option Hand) (s : ℝ) : runningMax hand [] s = s := rfl

lemma runningMax_cons (hand : Option Hand) (x : Template) (xs : List Template) (s : ℝ) :
    runningMax hand (x :: xs) s = runningMax hand xs (max s (templateScore hand x)) := rfl

/-- The initial accumulator never exceeds the running maximum. -/
lemma le_runningMax (hand : Option Hand) (l : List Template) (s : ℝ) :
    s ≤ runningMax hand l s := by
  induction l generalizing s with
  | nil => exact le_rfl
  | cons x xs ih => exact le_trans (le_max_left _ _) (ih (max s (templateScore hand x)))

/-- The score of every scanned template is bounded by the running maximum. -/
lemma score_le_runningMax (hand : Option Hand) (l : List Template) (s : ℝ)
    (t : Template) (ht : t ∈ l) : templateScore hand t ≤ runningMax hand l s := by
  induction l generalizing s with
  | nil => cases ht
  | cons x xs ih =>
    rw [runningMax_cons]
    rcases List.mem_cons.mp ht with rfl | hmem
    · exact le_trans (le_max_right _ _) (le_runningMax _ _ _)
    · exact ih _ hmem

/-- The second component of the `findBestMatch` scan is the running maximum of
the scores. -/
lemma bestFold_snd (hand : Option Hand) (l : List Template) (b : Option Template) (s : ℝ) :
    (l.foldl (bestStep hand) (b, s)).2 = runningMax hand l s := by
  induction l generalizing b s with
  | nil => rfl
  | cons x xs ih =>
    rw [List.foldl_cons, runningMax_cons, bestStep]
    by_cases hx : s < templateScore hand x
    · rw [if_pos hx, ih, max_eq_right hx.le]
    · rw [if_neg hx, ih, max_eq_left (not_lt.mp hx)]

/-- When no scanned score strictly beats the accumulator, the scan keeps it. -/
lemma bestFold_keep (hand : Option Hand) (l : List Template) (b : Option Template) (s : ℝ)
    (h : ∀ t ∈ l, templateScore hand t ≤ s) :
    l.foldl (bestStep hand) (b, s) = (b, s) := by
  induction l with
  | nil => rfl
  | cons x xs ih =>
    rw [List.foldl_cons, bestStep,
      if_neg (not_lt.mpr (h x (List.mem_cons_self x xs)))]
    exact ih (fun t ht => h t (List.mem_cons_of_mem x ht))

/-- When some scanned score strictly beats the accumulator, the scan selects
the earliest template attaining the final maximum: every earlier template
scores strictly below it. -/
lemma bestFold_argmax (hand : Option Hand) (l : List Template) :
    ∀ (b : Option Template) (s : ℝ), (∃ t ∈ l, s < templateScore hand t) →
    ∃ i : Fin l.length,
      (l.foldl (bestStep hand) (b, s)).1 = some (l.get i) ∧
      templateScore hand (l.get i) = (l.foldl (bestStep hand) (b, s)).2 ∧
      ∀ j : Fin l.length, j < i →
        templateScore hand (l.get j) < (l.foldl (bestStep hand) (b, s)).2 := by
  induction l with
  | nil => rintro b s ⟨t, ht, -⟩; cases ht
  | cons x xs ih =>
    rintro b s ⟨t, ht, hts⟩
    rw [List.foldl_cons, bestStep]
    by_cases hx : s < templateScore hand x
    · rw [if_pos hx]
      by_cases hxs : ∀ u ∈ xs, templateScore hand u ≤ templateScore hand x
      · rw [bestFold_keep hand xs _ _ hxs]
        refine ⟨⟨0, by simp⟩, rfl, rfl, ?_⟩
        intro j hj
        exact absurd hj (by simp [Fin.lt_def])
      · push_neg at hxs
        obtain ⟨u, hu, hux⟩ := hxs
        obtain ⟨i, h1, h2, h3⟩ := ih (some x) (templateScore hand x) ⟨u, hu, hux⟩
        refine ⟨i.succ, by simpa using h1, by simpa using h2, ?_⟩
        intro j hj
        induction j using Fin.cases with
        | zero =>
          simp only [List.get]
          rw [bestFold_snd]
          calc templateScore hand x < templateScore hand u := hux
            _ ≤ runningMax hand xs (templateScore hand x) := score_le_runningMax _ _ _ _ hu
        | succ j0 =>
          have hj0 : j0 < i := by
            rwa [Fin.succ_lt_succ_iff] at hj
          simpa using h3 j0 hj0
    · rw [if_neg hx]
      have htxs : t ∈ xs := by
        rcases List.mem_cons.mp ht with rfl | hmem
        · exact absurd hts hx
        · exact hmem
      obtain ⟨i, h1, h2, h3⟩ := ih b s ⟨t, htxs, hts⟩
      refine ⟨i.succ, by simpa using h1, by simpa using h2, ?_⟩
      intro j hj
      induction j using Fin.cases with
      | zero =>
        simp only [List.get]
        rw [bestFold_snd]
        calc templateScore hand x ≤ s := not_lt.mp hx
          _ < templateScore hand t := hts
          _ ≤ runningMax hand xs s := score_le_runningMax _ _ _ _ htxs
      | succ j0 =>
        have hj0 : j0 < i := by
          rwa [Fin.succ_lt_succ_iff] at hj
        simpa using h3 j0 hj0

/-- The velocity loop computes the `Finset` sum of per-landmark displacements. -/
lemma calculateHandVelocity_some (p landmarks : Fin 21 → Landmark) :
    (calculateHandVelocity (some p) landmarks).1 =
      min ((∑ i : Fin 21, ptDist (landmarks i) (p i)) / 21 * 100) 1 := by
  show min (_ / 21 * 100) 1 = _
  rw [foldl_add_eq, zero_add, ← Fin.sum_univ_def]

/-- Per-landmark displacements are nonnegative. -/
lemma ptDist_nonneg (a b : Landmark) : 0 ≤ ptDist a b := Real.sqrt_nonneg _

/-- A point is at displacement 0 from itself. -/
lemma ptDist_self (a : Landmark) : ptDist a a = 0 := by
  simp [ptDist]

/-- 2-D Cauchy–Schwarz for the angle kernel: the dot product is bounded in
absolute value by the product of the magnitudes. -/
lemma abs_dotProd_le (v1 v2 : ℝ × ℝ) :
    |dotProd v1 v2| ≤ magnitude v1 * magnitude v2 := by
  rw [magnitude, magnitude,
    ← Real.sqrt_mul (add_nonneg (mul_self_nonneg v1.1) (mul_self_nonneg v1.2))]
  rw [← Real.sqrt_sq_eq_abs]
  apply Real.sqrt_le_sqrt
  rw [dotProd]
  nlinarith [sq_nonneg (v1.1 * v2.2 - v1.2 * v2.1)]

/-- The epsilon-padded denominator of the angle kernel is strictly positive. -/
lemma angleDenom_pos (v1 v2 : ℝ × ℝ) :
    0 < magnitude v1 * magnitude v2 + 0.0001 := by
  have h1 : 0 ≤ magnitude v1 := Real.sqrt_nonneg _
  have h2 : 0 ≤ magnitude v2 := Real.sqrt_nonneg _
  nlinarith

/-- The arccosine argument of the angle kernel lies strictly inside [-1, 1]. -/
lemma angleArg_abs_lt (v1 v2 : ℝ × ℝ) :
    |dotProd v1 v2 / (magnitude v1 * magnitude v2 + 0.0001)| < 1 := by
  have hd := angleDenom_pos v1 v2
  rw [abs_div, abs_of_pos hd, div_lt_one hd]
  calc |dotProd v1 v2| ≤ magnitude v1 * magnitude v2 := abs_dotProd_le v1 v2
    _ < magnitude v1 * magnitude v2 + 0.0001 := by norm_num

/-- The angle kernel stays within [0, π]. -/
lemma angleBetween_mem (v1 v2 : ℝ × ℝ) :
    0 ≤ angleBetween v1 v2 ∧ angleBetween v1 v2 ≤ Real.pi :=
  ⟨Real.arccos_nonneg _, Real.arccos_le_pi _⟩

/-- Degenerate input: both segment vectors zero gives arccos 0 = π/2. -/
lemma angleBetween_zero : angleBetween (0, 0) (0, 0) = Real.pi / 2 := by
  rw [angleBetween, dotProd]
  norm_num [Real.arccos_zero]

/-- Scores never exceed 1. -/
lemma score_le_one (h : Hand) (t : Template) :
    getClosestTemplate (some h) (some t) ≤ 1 := by
  rw [getClosestTemplate_eq]
  have havg : 0 ≤ avgDistanceSpec h t :=
    div_nonneg (Finset.sum_nonneg fun i _ => Real.sqrt_nonneg _) (by norm_num)
  apply max_le (by norm_num)
  have hq : 0 ≤ avgDistanceSpec h t / 0.25 := by positivity
  linarith

/-! ### Claim theorems -/

/-- Claim C1: for every 21-landmark hand and every template,
`getClosestTemplate` returns `max(0, 1 - avgDistance / 0.25)` where
`avgDistance` is the mean of the 21 per-landmark Euclidean distances; in
particular it returns 1 when the landmarks of the hand coincide with those of the template
landmarks and 0 whenever the average distance is at least 0.25. -/
theorem getClosestTemplate_score_spec (h : Hand) (t : Template) :
    getClosestTemplate (some h) (some t) = max 0 (1 - avgDistanceSpec h t / 0.25) ∧
    ((∀ i : Fin 21, (h.landmarks i).x = ((t.landmarks i).x : ℝ) ∧
        (h.landmarks i).y = ((t.landmarks i).y : ℝ)) →
      getClosestTemplate (some h) (some t) = 1) ∧
    (0.25 ≤ avgDistanceSpec h t → getClosestTemplate (some h) (some t) = 0) := by
  refine ⟨getClosestTemplate_eq h t, ?_, ?_⟩
  · intro hxy
    rw [getClosestTemplate_eq]
    have h0 : avgDistanceSpec h t = 0 := by
      rw [avgDistanceSpec, Finset.sum_eq_zero, zero_div]
      intro i _
      rw [landmarkDist, (hxy i).1, (hxy i).2]
      simp
    rw [h0]
    norm_num
  · intro havg
    rw [getClosestTemplate_eq, max_eq_left]
    rw [sub_nonpos, le_div_iff₀ (by norm_num : (0 : ℝ) < 0.25)]
    linarith

/-- Witness for C1: the hand lying exactly on the sun-salutation template
scores 1, and a hand whose average distance exceeds 0.25 scores 0. -/
theorem getClosestTemplate_score_spec_witness :
    getClosestTemplate (some (handOfTemplate sunSalutation)) (some sunSalutation) = 1 ∧
    getClosestTemplate (some farHand) (some sunSalutation) = 0 :=
  ⟨(getClosestTemplate_score_spec (handOfTemplate sunSalutation) sunSalutation).2.1
      (fun _ => ⟨rfl, rfl⟩),
   (getClosestTemplate_score_spec farHand sunSalutation).2.2
      (le_trans (by norm_num) (far_avg sunSalutation sun_x_nonneg))⟩

/-- Claim C6: an absent hand or absent template yields score 0 — the function
is total and returns a plain number, never an error or a null. -/
theorem getClosestTemplate_absent_input (h : Option Hand) (t : Option Template) :
    getClosestTemplate none t = 0 ∧ getClosestTemplate h none = 0 := by
  constructor
  · cases t <;> rfl
  · cases h <;> rfl

/-- Claim C10: the match score reads only the x and y coordinates of the live
landmarks; two hands agreeing in x and y at every index score identically
against any template, whatever their z values. -/
theorem getClosestTemplate_ignores_depth (h1 h2 : Hand) (t : Template)
    (hx : ∀ i : Fin 21, (h1.landmarks i).x = (h2.landmarks i).x)
    (hy : ∀ i : Fin 21, (h1.landmarks i).y = (h2.landmarks i).y) :
    getClosestTemplate (some h1) (some t) = getClosestTemplate (some h2) (some t) := by
  have havg : avgDistanceSpec h1 t = avgDistanceSpec h2 t := by
    rw [avgDistanceSpec, avgDistanceSpec]
    congr 1
    apply Finset.sum_congr rfl
    intro i _
    rw [landmarkDist, landmarkDist, hx i, hy i]
  rw [getClosestTemplate_eq, getClosestTemplate_eq, havg]

/-- A hand at a fixed x/y position whose landmarks carry depth `z`. -/
noncomputable def flatHand (z : ℝ) : Hand := ⟨fun _ => ⟨0.3, 0.4, z⟩⟩

/-- Witness for C10: two hands equal in x/y but with depths 0 and 5 score the
same against the sun-salutation template. -/
theorem getClosestTemplate_ignores_depth_witness :
    getClosestTemplate (some (flatHand 0)) (some sunSalutation) =
      getClosestTemplate (some (flatHand 5)) (some sunSalutation) :=
  getClosestTemplate_ignores_depth (flatHand 0) (flatHand 5) sunSalutation
    (fun _ => rfl) (fun _ => rfl)

/-- Counterexample for C4: at a hand whose average distance to every library
template is at least 0.25, every template scores 0, so the maximal score 0 is
attained by the earliest template (sun salutation) — yet `findBestMatch`
returns no template at all (`bestTemplate` stays `null`), because the scan
keeps only strictly greater scores over the initial `bestScore = 0`. -/
theorem findBestMatch_null_counterexample :
    (findBestMatch (some farHand)).1 = none ∧
    getClosestTemplate (some farHand) (some sunSalutation) = 0 ∧
    getClosestTemplate (some farHand) (some tremblingFlame) = 0 ∧
    getClosestTemplate (some farHand) (some brokenAngle) = 0 ∧
    getClosestTemplate (some farHand) (some fingerFlutter) = 0 ∧
    getClosestTemplate (some farHand) (some closedLotus) = 0 := by
  have hz : ∀ t ∈ templates, templateScore (some farHand) t ≤ 0 := by
    intro t ht
    rw [templateScore, score_far t (templates_x_nonneg t ht)]
  refine ⟨?_, score_far _ sun_x_nonneg, score_far _ flame_x_nonneg,
    score_far _ broken_x_nonneg, score_far _ flutter_x_nonneg,
    score_far _ lotus_x_nonneg⟩
  rw [findBestMatch, bestFold_keep (some farHand) templates none 0 hz]

/-- Claim C4 (amended): whenever some library template scores strictly above 0,
`findBestMatch` returns the earliest-indexed template attaining the maximal
score: its score equals the returned score, no template scores higher, and
every earlier-indexed template scores strictly lower.  (When every template
scores 0 the scan instead returns no template — see the counterexample.) -/
theorem findBestMatch_earliest_argmax (hand : Option Hand)
    (hpos : ∃ t ∈ templates, 0 < getClosestTemplate hand (some t)) :
    ∃ i : Fin templates.length,
      (findBestMatch hand).1 = some (templates.get i) ∧
      getClosestTemplate hand (some (templates.get i)) = (findBestMatch hand).2 ∧
      (∀ t ∈ templates, getClosestTemplate hand (some t) ≤ (findBestMatch hand).2) ∧
      ∀ j : Fin templates.length, j < i →
        getClosestTemplate hand (some (templates.get j)) < (findBestMatch hand).2 := by
  rw [findBestMatch]
  obtain ⟨t, ht, htpos⟩ := hpos
  obtain ⟨i, h1, h2, h3⟩ := bestFold_argmax hand templates none 0 ⟨t, ht, htpos⟩
  refine ⟨i, h1, h2, ?_, h3⟩
  intro u hu
  show templateScore hand u ≤ _
  rw [bestFold_snd]
  exact score_le_runningMax hand templates 0 u hu

/-- Witness for C4 (amended): for the hand lying on the sun-salutation
template the scan returns that template (library index 0) with score 1. -/
theorem findBestMatch_earliest_argmax_witness :
    (findBestMatch (some (handOfTemplate sunSalutation))).1 = some sunSalutation ∧
    (findBestMatch (some (handOfTemplate sunSalutation))).2 = 1 := by
  obtain ⟨i, h1, h2, h4, h3⟩ :=
    findBestMatch_earliest_argmax (some (handOfTemplate sunSalutation))
      ⟨sunSalutation, List.mem_cons_self _ _, by rw [score_self]; norm_num⟩
  have hsnd : (findBestMatch (some (handOfTemplate sunSalutation))).2 = 1 := by
    apply le_antisymm
    · rw [← h2]
      exact score_le_one _ _
    · calc (1 : ℝ) =
          getClosestTemplate (some (handOfTemplate sunSalutation)) (some sunSalutation) :=
            (score_self _).symm
        _ ≤ _ := h4 sunSalutation (List.mem_cons_self _ _)
  have hlen : 0 < templates.length := by norm_num [templates]
  have hi0 : i = ⟨0, hlen⟩ := by
    by_contra hne
    have hvi : i.val ≠ 0 := fun hv => hne (Fin.ext hv)
    have h0lt : (⟨0, hlen⟩ : Fin templates.length) < i := by
      rw [Fin.lt_def]
      exact Nat.pos_of_ne_zero hvi
    have hcontra := h3 ⟨0, hlen⟩ h0lt
    rw [hsnd, show templates.get ⟨0, hlen⟩ = sunSalutation from rfl, score_self] at hcontra
    exact lt_irrefl 1 hcontra
  rw [hi0] at h1
  exact ⟨h1, hsnd⟩

/-- Claim C3: `calculateHandVelocity` returns exactly 0 on the first call for
a hand identity and stores the current landmarks as the new previous baseline;
every result lies in [0, 1] (clamped, never undefined); and for a fixed
previous snapshot the result is monotone in the per-landmark displacement. -/
theorem calculateHandVelocity_spec :
    (∀ lm : Fin 21 → Landmark, calculateHandVelocity none lm = (0, some lm)) ∧
    (∀ (prev : Option (Fin 21 → Landmark)) (lm : Fin 21 → Landmark),
      0 ≤ (calculateHandVelocity prev lm).1 ∧ (calculateHandVelocity prev lm).1 ≤ 1) ∧
    (∀ p lm1 lm2 : Fin 21 → Landmark,
      (∀ i : Fin 21, ptDist (lm1 i) (p i) ≤ ptDist (lm2 i) (p i)) →
      (calculateHandVelocity (some p) lm1).1 ≤ (calculateHandVelocity (some p) lm2).1) := by
  refine ⟨fun _ => rfl, ?_, ?_⟩
  · intro prev lm
    cases prev with
    | none => exact ⟨le_refl 0, zero_le_one⟩
    | some p =>
      rw [calculateHandVelocity_some]
      refine ⟨le_min ?_ zero_le_one, min_le_right _ _⟩
      apply mul_nonneg _ (by norm_num)
      exact div_nonneg (Finset.sum_nonneg fun i _ => ptDist_nonneg _ _) (by norm_num)
  · intro p lm1 lm2 hle
    rw [calculateHandVelocity_some, calculateHandVelocity_some]
    have hsum : (∑ i : Fin 21, ptDist (lm1 i) (p i)) ≤
        ∑ i : Fin 21, ptDist (lm2 i) (p i) :=
      Finset.sum_le_sum fun i _ => hle i
    exact min_le_min (by gcongr) le_rfl

/-- A stationary synthetic hand at the origin. -/
noncomputable def baseHand : Fin 21 → Landmark := fun _ => ⟨0, 0, 0⟩

/-- The same hand displaced by one unit in x. -/
noncomputable def movedHand : Fin 21 → Landmark := fun _ => ⟨1, 0, 0⟩

/-- Witness for C3: the first call returns 0 and stores the baseline, and a
displaced hand reports at least the velocity of a still hand. -/
theorem calculateHandVelocity_spec_witness :
    calculateHandVelocity none baseHand = (0, some baseHand) ∧
    (calculateHandVelocity (some baseHand) baseHand).1 ≤
      (calculateHandVelocity (some baseHand) movedHand).1 :=
  ⟨calculateHandVelocity_spec.1 baseHand,
   calculateHandVelocity_spec.2.2 baseHand baseHand movedHand
     (fun i => by rw [ptDist_self]; exact ptDist_nonneg _ _)⟩

/-- Claim C5: the angle kernel shared by the finger-bend and arm-angle
computations has a strictly positive denominator (the additive epsilon), its
arccosine argument stays strictly inside [-1, 1] (so the JS `Math.acos` never
sees an out-of-domain input), every produced angle lies in [0, π], and three
identical points produce the finite value π/2, not an invalid number. -/
theorem angle_computations_safe :
    (∀ v1 v2 : ℝ × ℝ,
      0 < magnitude v1 * magnitude v2 + 0.0001 ∧
      |dotProd v1 v2 / (magnitude v1 * magnitude v2 + 0.0001)| < 1 ∧
      0 ≤ angleBetween v1 v2 ∧ angleBetween v1 v2 ≤ Real.pi) ∧
    (∀ mcp pip tip : Landmark,
      0 ≤ fingerBendAngle mcp pip tip ∧ fingerBendAngle mcp pip tip ≤ Real.pi) ∧
    (∀ (lm : Fin 21 → Landmark) (f : Finger),
      0 ≤ calculateFingerAngles lm f ∧ calculateFingerAngles lm f ≤ Real.pi) ∧
    (∀ shoulder elbow wrist : Landmark,
      0 ≤ calculateArmAngle shoulder elbow wrist ∧
        calculateArmAngle shoulder elbow wrist ≤ Real.pi) ∧
    (∀ q : Landmark, fingerBendAngle q q q = Real.pi / 2 ∧
      calculateArmAngle q q q = Real.pi / 2) := by
  refine ⟨fun v1 v2 => ⟨angleDenom_pos v1 v2, angleArg_abs_lt v1 v2,
      (angleBetween_mem v1 v2).1, (angleBetween_mem v1 v2).2⟩,
    fun mcp pip tip => angleBetween_mem _ _,
    fun lm f => angleBetween_mem _ _,
    fun shoulder elbow wrist => angleBetween_mem _ _,
    fun q => ⟨?_, ?_⟩⟩
  · rw [fingerBendAngle]
    simp only [sub_self]
    exact angleBetween_zero
  · rw [calculateArmAngle]
    simp only [sub_self]
    exact angleBetween_zero

/-- Every single pool operation preserves the 80-cap. -/
lemma applyOp_length (pool : List Medallion) (op : VisOp) (h : pool.length ≤ 80) :
    (applyOp pool op).length ≤ 80 := by
  cases op with
  | spawn x y p =>
    show (spawnMedallion x y p pool).length ≤ 80
    rw [spawnMedallion]
    by_cases h81 : 80 < (pool ++ [mkMedallion x y p]).length
    · rw [if_pos h81]
      rw [List.length_drop, List.length_append]
      simp only [List.length_singleton]
      omega
    · rw [if_neg h81]
      omega
  | update =>
    show (updateMedallions pool).length ≤ 80
    calc (updateMedallions pool).length ≤ (pool.map ageMedallion).length :=
          List.length_filter_le _ _
      _ = pool.length := List.length_map _ _
      _ ≤ 80 := h

/-- Claim C2: from the initial empty pool, no sequence of spawn and update
operations ever leaves more than 80 medallions; and a spawn into a full
80-entry pool evicts exactly the front (oldest-spawned) entry, whatever its
remaining life, and appends the new one at the back. -/
theorem medallionPool_cap_fifo :
    (∀ ops : List VisOp, (runOps ops).length ≤ 80) ∧
    (∀ (x y : ℚ) (p : SpawnParams) (pool : List Medallion), pool.length = 80 →
      spawnMedallion x y p pool = pool.drop 1 ++ [mkMedallion x y p]) := by
  constructor
  · intro ops
    rw [runOps]
    have hinv : ∀ (l : List VisOp) (pool : List Medallion), pool.length ≤ 80 →
        (l.foldl applyOp pool).length ≤ 80 := by
      intro l
      induction l with
      | nil => intro pool h; exact h
      | cons op rest ih =>
        intro pool h
        exact ih _ (applyOp_length pool op h)
    exact hinv ops [] (by simp)
  · intro x y p pool h
    rw [spawnMedallion, if_pos (by rw [List.length_append, h]; norm_num)]
    exact List.drop_append_of_le_length (by omega)

/-- Fixed spawn draws used by the C2 witness. -/
def demoParams : SpawnParams := ⟨0, 0, 0, 0, 0.01⟩

/-- A single concrete medallion used to fill the C2 witness pool. -/
def demoMedallion : Medallion := ⟨0, 0, 0, 0, 1, 0.01⟩

/-- An 80-entry (full) pool. -/
def demoPool : List Medallion := List.replicate 80 demoMedallion

/-- A short concrete operation sequence. -/
def demoOps : List VisOp := [VisOp.spawn 0 0 demoParams, VisOp.update]

/-- Witness for C2 at concrete inputs: the cap holds after a concrete run, and
spawning into the full 80-entry pool drops the front entry. -/
theorem medallionPool_cap_fifo_witness :
    (runOps demoOps).length ≤ 80 ∧
    spawnMedallion 0 0 demoParams demoPool =
      demoPool.drop 1 ++ [mkMedallion 0 0 demoParams] :=
  ⟨medallionPool_cap_fifo.1 demoOps,
   medallionPool_cap_fifo.2 0 0 demoParams demoPool (by simp [demoPool])⟩

/-- Claim C7: a spawned medallion has life 1; one update tick integrates
position, adds the 0.02 gravity bias to the vertical velocity and subtracts
the per-instance decay from life; and the updated pool contains exactly the
aged medallions whose life remained above 0 — anything reaching life ≤ 0 is
gone on that very tick and nothing else enters the pool. -/
theorem medallion_lifecycle (x y : ℚ) (p : SpawnParams) (pool : List Medallion)
    (m : Medallion) :
    (mkMedallion x y p).life = 1 ∧
    (m ∈ updateMedallions pool ↔
      ∃ m0 ∈ pool, m = ageMedallion m0 ∧ 0 < m0.life - m0.decay) ∧
    (ageMedallion m).x = m.x + m.vx ∧ (ageMedallion m).y = m.y + m.vy ∧
    (ageMedallion m).vy = m.vy + 0.02 ∧ (ageMedallion m).life = m.life - m.decay := by
  refine ⟨rfl, ?_, rfl, rfl, rfl, rfl⟩
  rw [updateMedallions]
  simp only [List.mem_filter, List.mem_map, decide_eq_true_eq]
  constructor
  · rintro ⟨⟨m0, hm0, rfl⟩, hlife⟩
    exact ⟨m0, hm0, rfl, hlife⟩
  · rintro ⟨m0, hm0, rfl, hlife⟩
    exact ⟨⟨m0, hm0, rfl⟩, hlife⟩

/-- Claim C9: switching the interaction mode empties the medallion pool
immediately, regardless of the prior pool contents. -/
theorem setMode_clears_medallions (newMode : String) (s : VisState) :
    (setMode newMode s).medallions = [] ∧
    (setMode newMode s).medallions.length = 0 :=
  ⟨rfl, rfl⟩

/-- Claim C8: a finger note triggers exactly when the pentatonic note mapped
from the fingertip height differs from the last-triggered note of that finger AND
the velocity strictly exceeds 0.1; consequently, over any frame sequence whose
velocity never exceeds 0.1, no finger-note trigger ever fires. -/
theorem finger_note_trigger_spec :
    (∀ (velocity : ℚ) (landmarks : Fin 21 → ℚ × ℚ) (last : LastNotes) (f : Finger),
      (∃ n, (updateFromHandTriggers velocity landmarks last).1 f = some n) ↔
        (some (noteForTipY (landmarks (tipIndex f)).2) ≠ last f ∧
          (0.1 : ℚ) < velocity)) ∧
    (∀ (frames : List MusicFrame) (last : LastNotes),
      (∀ fr ∈ frames, fr.1 ≤ (0.1 : ℚ)) →
      ∀ tm ∈ (runFrames frames last).1, ∀ f : Finger, tm f = none) := by
  constructor
  · intro velocity landmarks last f
    show (∃ n, (fingerTrigger velocity (landmarks (tipIndex f)).2 (last f)).1 = some n) ↔ _
    rw [fingerTrigger]
    by_cases hc : some (noteForTipY (landmarks (tipIndex f)).2) ≠ last f ∧
        (0.1 : ℚ) < velocity
    · rw [if_pos hc]
      exact iff_of_true ⟨_, rfl⟩ hc
    · rw [if_neg hc]
      simp only [iff_false_intro hc, iff_false]
      rintro ⟨n, hn⟩
      cases hn
  · intro frames
    induction frames with
    | nil =>
      intro last h tm htm
      cases htm
    | cons fr rest ih =>
      intro last h tm htm
      rw [runFrames] at htm
      rcases List.mem_cons.mp htm with rfl | hmem
      · intro f
        have hv : fr.1 ≤ (0.1 : ℚ) := h fr (List.mem_cons_self _ _)
        show (fingerTrigger fr.1 ((fr.2 (tipIndex f)).2) _).1 = none
        rw [fingerTrigger,
          if_neg (fun hc => absurd hc.2 (not_lt.mpr hv))]
      · exact ih _ (fun g hg => h g (List.mem_cons_of_mem _ hg)) tm hmem

/-- The fixed landmark set used in the C8 witness frames. -/
def stillLm : Fin 21 → ℚ × ℚ := fun _ => (0.5, 0.5)

/-- Fifty consecutive frames with velocity 0. -/
def stillFrames : List MusicFrame :=
  (0, stillLm) :: List.replicate 49 (0, stillLm)

/-- An initial last-note store where no finger has triggered yet. -/
def emptyNotes : LastNotes := fun _ => none

/-- Witness for C8: across fifty zero-velocity frames, the thumb slot of the first frame (like every other slot) carries no trigger. -/
theorem finger_note_trigger_spec_witness :
    (updateFromHandTriggers 0 stillLm emptyNotes).1 Finger.thumb = none := by
  have h := finger_note_trigger_spec.2 stillFrames emptyNotes
    (by
      intro fr hfr
      rcases List.mem_cons.mp hfr with rfl | hmem
      · norm_num
      · rw [List.eq_of_mem_replicate hmem]
        norm_num)
  have hm : (updateFromHandTriggers 0 stillLm emptyNotes).1 ∈
      (runFrames stillFrames emptyNotes).1 := by
    rw [stillFrames, runFrames]
    exact List.mem_cons_self _ _
  exact h _ hm Finger.thumb

end LazgiHands
